import Mathlib

/-!
Verification development for the `BaselineAgent` pipeline in
`src/agent/baseline.py` (repository danielruales/calypso).

The agent's core is modelled shallowly:

* Strings are handled both as `String` (pipeline level) and as `List Char`
  (for the markdown-fence extraction logic, where we reason inductively).
* The markdown-fence clean-up in `generate_code` /
  `generate_visualization_code` (`code.split('```python')[1].split('```')[0]
  .strip()` with the generic-fence and raw fallbacks) is modelled by
  `extractL` below: Python's `s.split(sep)[1]` for a separator known to occur
  is the segment strictly between the first and second occurrence, i.e.
  `takeUntilTok` applied after `afterTok`, and `s.split(sep)[0]` is
  `takeUntilTok`.  `.strip()` is `pyStrip`.
* `litellm.completion` is an external collaborator and is modelled as an
  oracle `String → Except String String` (error = raised exception);
  `exec` is likewise an oracle `String → Env → Except String Env` acting on
  a namespace `Env`, threaded exactly the way `analyze` threads
  `exec_globals`.
* A raised Python exception is an `Except.error` result; the list returned
  alongside records the prompts sent to the completion backend (the call
  trace), so "zero backend calls" is an empty trace.
-/

/-- The backtick character. -/
def btk : Char := '\x60'

/-- The tail of the opening fence token "```python" (everything after its
first character). -/
def pyRest : List Char := [btk, btk, 'p', 'y', 't', 'h', 'o', 'n']

/-- The full language-tagged fence token "```python". -/
def pyTag : List Char := btk :: pyRest

/-- The tail of the generic fence token "```". -/
def tickRest : List Char := [btk, btk]

/-- The full generic fence token "```". -/
def tick : List Char := btk :: tickRest

/-- Python's whitespace set used by `str.strip()`. -/
def pyWS (c : Char) : Bool :=
  c = ' ' || c = '\t' || c = '\n' || c = '\r' || c = '\x0b' || c = '\x0c'

/-- Python `str.strip()`: drop leading and trailing whitespace. -/
def pyStrip (l : List Char) : List Char :=
  ((l.dropWhile pyWS).reverse.dropWhile pyWS).reverse

/-- Python's substring test `tok in l` for the nonempty token `s0 :: sr`. -/
def containsTok (s0 : Char) (sr : List Char) : List Char → Bool
  | [] => false
  | c :: cs => (s0 :: sr).isPrefixOf (c :: cs) || containsTok s0 sr cs

/-- The segment of `l` strictly before the first occurrence of the token
`s0 :: sr` (all of `l` if the token does not occur): Python
`l.split(tok)[0]`. -/
def takeUntilTok (s0 : Char) (sr : List Char) : List Char → List Char
  | [] => []
  | c :: cs =>
    if (s0 :: sr).isPrefixOf (c :: cs) then [] else c :: takeUntilTok s0 sr cs

/-- The remainder of `l` strictly after the first occurrence of the token
`s0 :: sr`, if any. -/
def afterTok (s0 : Char) (sr : List Char) : List Char → Option (List Char)
  | [] => none
  | c :: cs =>
    if (s0 :: sr).isPrefixOf (c :: cs) then some (cs.drop sr.length)
    else afterTok s0 sr cs

/-- The markdown clean-up applied to the raw model text in
`BaselineAgent.generate_code` (lines 93-99) and
`generate_visualization_code` (lines 192-198):

    if '```python' in code:
        code = code.split('```python')[1].split('```')[0].strip()
    elif '```' in code:
        code = code.split('```')[1].split('```')[0].strip()
    return code

`code.split(tok)[1]` (the index is safe because of the containment guard)
is the segment between the first occurrence of `tok` and the next one, i.e.
`takeUntilTok` of `afterTok`. -/
def extractL (code : List Char) : List Char :=
  if containsTok btk pyRest code then
    pyStrip (takeUntilTok btk tickRest
      (takeUntilTok btk pyRest ((afterTok btk pyRest code).getD [])))
  else if containsTok btk tickRest code then
    pyStrip (takeUntilTok btk tickRest
      (takeUntilTok btk tickRest ((afterTok btk tickRest code).getD [])))
  else
    code

/-- String-level wrapper of `extractL`. -/
def extractS (code : String) : String :=
  String.mk (extractL code.data)

/-- The namespace threaded through `exec` calls (`exec_globals` in
`analyze`): a set of name bindings. -/
abbrev Env : Type := List (String × String)

/-- `self.schema_path` from `BaselineAgent.__init__`. -/
def schema_path : String := "../data/schema.md"

/-- `BaselineAgent.load_schema` (lines 21-27): the schema source is an
`Option String` (`none` = the file is missing); a missing file re-raises
`FileNotFoundError` with the formatted message. -/
def load_schema (schemaFile : Option String) : Except String String :=
  match schemaFile with
  | some s => Except.ok s
  | none => Except.error ("Schema file not found: " ++ schema_path)

/-- The f-string prompt rendered in `BaselineAgent.generate_code`
(lines 42-78), byte-for-byte (apostrophes written as \x27). -/
def analysisPrompt (schema question : String) : String :=
  "\nYou are an expert Python data scientist. Generate Python code to answer the following question using pandas.\n\nAVAILABLE DATA FILES:\n- products.csv (load with: df_products = pd.read_csv(\x27../data/products.csv\x27))\n- customers.csv (load with: df_customers = pd.read_csv(\x27../data/customers.csv\x27))\n- orders.csv (load with: df_orders = pd.read_csv(\x27../data/orders.csv\x27))\n\nDATABASE SCHEMA:\n"
    ++ schema
    ++ "\n\nQUESTION: "
    ++ question
    ++ "\n\nREQUIREMENTS:\n1. Import pandas as pd and any other needed libraries\n2. Load only the CSV files you need for this analysis\n3. Write clear, efficient pandas code\n4. Include comments explaining your approach\n5. Print the final result\n6. Handle any data type conversions if needed\n7. Only output the Python code, no explanations before or after\n\nExample format:\n```python\nimport pandas as pd\nimport matplotlib.pyplot as plt\n\n# Load data\ndf_products = pd.read_csv(\x27../data/products.csv\x27)\n\n# Your analysis code here\nresult = df_products.groupby(\x27product_category\x27)[\x27product_price\x27].mean()\nprint(result)\n```\n\nGenerate the Python code:\n"

/-- The f-string prompt rendered in
`BaselineAgent.generate_visualization_code` (lines 118-177),
byte-for-byte (apostrophes written as \x27). -/
def vizPrompt (schema question : String) : String :=
  "\nYou are an expert Python data scientist creating visualizations for non-technical business users. Generate Python code to create the most appropriate visualization that answers the following question.\n\nAVAILABLE DATA FILES:\n- products.csv (load with: df_products = pd.read_csv(\x27../data/products.csv\x27))\n- customers.csv (load with: df_customers = pd.read_csv(\x27../data/customers.csv\x27))\n- orders.csv (load with: df_orders = pd.read_csv(\x27../data/orders.csv\x27))\n\nDATABASE SCHEMA:\n"
    ++ schema
    ++ "\n\nQUESTION: "
    ++ question
    ++ "\n\nREQUIREMENTS:\n1. Import pandas, matplotlib.pyplot, and seaborn\n2. Load only the CSV files you need for this visualization\n3. Process the data to answer the question\n4. Automatically choose the BEST chart type for the data and question:\n   - Bar charts for categorical comparisons (maintain DataFrame order by using the `order=` argument with Seaborn)\n   - Line plots for trends over time\n   - Pie charts for parts of a whole (max 6 categories)\n   - Histograms for distributions\n   - Scatter plots for relationships between variables\n   - Box plots for statistical summaries\n5. Add clear, business-friendly title and labels\n6. Use colors and formatting that are professional and easy to read\n7. Use `plt.show()` to display the chart\n8. Annotate bar charts by matching annotation order to actual bar positions using `order=` in `sns.barplot()` or `ax.patches`\n9. Make the chart accessible to non-technical users\n10. Only output the Python code, no explanations before or after\n11. Ensure labels and annotations do not overlap with the chart edges. If necessary, use plt.subplots_adjust(right=0.85) to create extra space for labels on the right or bbox positioning for tight text placement.\n12.\tIf you add text labels using a loop, reset the DataFrame index or use enumerate() to avoid spacing/layout issues in the chart.\n13. Set an appropriate figure size using `plt.figure(figsize=(width, height))`, where `height` scales with the number of bars (e.g., `len(df) * 0.6`) to prevent excessive whitespace.\n\n\nExample format:\n```python\nimport pandas as pd\nimport matplotlib.pyplot as plt\nimport seaborn as sns\n\n# Load data\ndf_products = pd.read_csv(\x27../data/products.csv\x27)\n\n# Process data for visualization\ncategory_prices = df_products.groupby(\x27product_category\x27)[\x27product_price\x27].mean()\n\n# Create visualization\nplt.figure(figsize=(10, 6))\ncategory_prices.plot(kind=\x27bar\x27)\nplt.title(\x27Average Product Price by Category\x27)\nplt.xlabel(\x27Product Category\x27)\nplt.ylabel(\x27Average Price ($)\x27)\nplt.xticks(rotation=45)\nplt.tight_layout()\nplt.show()\n```\n\nGenerate the Python visualization code:\n"

/-- `BaselineAgent.generate_code` (lines 29-102).  `completion` is the
`litellm.completion` collaborator: it receives the rendered prompt and
returns the message content, or fails.  `load_schema` runs before the
`try` block, so its failure propagates (`Except.error`); a `completion`
failure is swallowed into the diagnostic string
`"Error generating code: " ++ e`.  The second component records the
prompts sent to the backend. -/
def generate_code (schemaFile : Option String)
    (completion : String → Except String String) (question : String) :
    Except String String × List String :=
  match load_schema schemaFile with
  | Except.error e => (Except.error e, [])
  | Except.ok schema =>
    let prompt := analysisPrompt schema question
    match completion prompt with
    | Except.ok content => (Except.ok (extractS content), [prompt])
    | Except.error e => (Except.ok ("Error generating code: " ++ e), [prompt])

/-- `BaselineAgent.generate_visualization_code` (lines 104-201): same
structure as `generate_code`, with the visualization prompt and the
diagnostic prefix `"Error generating visualization code: "`. -/
def generate_visualization_code (schemaFile : Option String)
    (completion : String → Except String String) (question : String) :
    Except String String × List String :=
  match load_schema schemaFile with
  | Except.error e => (Except.error e, [])
  | Except.ok schema =>
    let prompt := vizPrompt schema question
    match completion prompt with
    | Except.ok content => (Except.ok (extractS content), [prompt])
    | Except.error e =>
      (Except.ok ("Error generating visualization code: " ++ e), [prompt])

/-- The result dict assembled by `BaselineAgent.analyze`: keys
`question` and `code` are always present; `viz_code`, `status` and
`error` are optional. -/
structure AnalysisResult where
  question : String
  code : String
  viz_code : Option String
  status : Option String
  error : Option String
deriving DecidableEq, Repr

/-- `BaselineAgent.analyze` (lines 203-241).  `runner` is the `exec`
collaborator: it runs one code unit in a namespace and returns the
updated namespace, or fails with the exception text.  `analyze`:

1. always generates the analysis code (a `load_schema` failure inside
   propagates);
2. if `include_viz`, generates the visualization code in a second,
   independent pass and stores it under `viz_code`;
3. if `execute`, runs the code unit(s) in order in one fresh shared
   namespace (`exec_globals = {}`): first `code`, then (when
   `include_viz`) `viz_code`; the first failure sets
   `status = error` / `error` and stops, otherwise `status = success`.

The second component is the concatenated backend-call trace. -/
def analyze (schemaFile : Option String)
    (completion : String → Except String String)
    (runner : String → Env → Except String Env)
    (question : String) (execute : Bool) (include_viz : Bool) :
    Except String AnalysisResult × List String :=
  match generate_code schemaFile completion question with
  | (Except.error e, log) => (Except.error e, log)
  | (Except.ok code, log1) =>
    match (if include_viz then
            match generate_visualization_code schemaFile completion question with
            | (Except.error e, log2) => (Except.error e, log1 ++ log2)
            | (Except.ok viz, log2) =>
              (Except.ok { question := question, code := code,
                           viz_code := some viz, status := none, error := none },
               log1 ++ log2)
          else
            (Except.ok { question := question, code := code,
                         viz_code := none, status := none, error := none },
             log1)) with
    | (Except.error e, log) => (Except.error e, log)
    | (Except.ok r1, log) =>
      if execute then
        match runner r1.code [] with
        | Except.error msg =>
          (Except.ok { r1 with status := some ("error"), error := some msg }, log)
        | Except.ok env1 =>
          if include_viz then
            match runner (r1.viz_code.getD ("")) env1 with
            | Except.error msg =>
              (Except.ok { r1 with status := some ("error"), error := some msg },
               log)
            | Except.ok _ =>
              (Except.ok { r1 with status := some ("success") }, log)
          else
            (Except.ok { r1 with status := some ("success") }, log)
      else
        (Except.ok r1, log)

theorem isPrefixOf_append_self (x r : List Char) :
    x.isPrefixOf (x ++ r) = true := by
  induction x with
  | nil => simp
  | cons c cs ih =>
    show (c == c && cs.isPrefixOf (cs ++ r)) = true
    rw [beq_self_eq_true, Bool.true_and, ih]

theorem tok_not_prefix_cons (s0 c : Char) (sr xs : List Char) (hc : c ≠ s0) :
    (s0 :: sr).isPrefixOf (c :: xs) = false := by
  have h : (s0 == c) = false := beq_eq_false_iff_ne.mpr (Ne.symm hc)
  show (s0 == c && sr.isPrefixOf xs) = false
  rw [h, Bool.false_and]

theorem containsTok_append_tok (s0 : Char) (sr p r : List Char) :
    containsTok s0 sr (p ++ ((s0 :: sr) ++ r)) = true := by
  induction p with
  | nil =>
    show ((s0 :: sr).isPrefixOf ((s0 :: sr) ++ r)
        || containsTok s0 sr (sr ++ r)) = true
    rw [isPrefixOf_append_self, Bool.true_or]
  | cons c cs ih =>
    show ((s0 :: sr).isPrefixOf (c :: (cs ++ ((s0 :: sr) ++ r)))
        || containsTok s0 sr (cs ++ ((s0 :: sr) ++ r))) = true
    rw [ih, Bool.or_true]

theorem isPrefixOf_append_weaken (x y l : List Char)
    (h : (x ++ y).isPrefixOf l = true) : x.isPrefixOf l = true := by
  induction x generalizing l with
  | nil => simp
  | cons c cs ih =>
    cases l with
    | nil => exact absurd h (by simp)
    | cons d l2 =>
      have h2 : (c == d) = true ∧ ((cs ++ y).isPrefixOf l2) = true := by
        simpa [Bool.and_eq_true] using h
      show (c == d && cs.isPrefixOf l2) = true
      rw [h2.1, Bool.true_and]
      exact ih l2 h2.2

theorem containsTok_tick_of_py (l : List Char)
    (h : containsTok btk pyRest l = true) : containsTok btk tickRest l = true := by
  induction l with
  | nil => exact absurd h (by simp [containsTok])
  | cons c cs ih =>
    have h2 : ((btk :: pyRest).isPrefixOf (c :: cs)) = true
        ∨ containsTok btk pyRest cs = true := by
      simpa [containsTok, Bool.or_eq_true] using h
    show ((btk :: tickRest).isPrefixOf (c :: cs)
        || containsTok btk tickRest cs) = true
    cases h2 with
    | inl hl =>
      have e : (btk :: tickRest) ++ ['p', 'y', 't', 'h', 'o', 'n'] = btk :: pyRest := rfl
      have hw : (btk :: tickRest).isPrefixOf (c :: cs) = true := by
        apply isPrefixOf_append_weaken _ ['p', 'y', 't', 'h', 'o', 'n']
        rw [e]; exact hl
      rw [hw, Bool.true_or]
    | inr hr => rw [ih hr, Bool.or_true]

theorem afterTok_append (s0 : Char) (sr p r : List Char)
    (hp : ∀ c ∈ p, c ≠ s0) :
    afterTok s0 sr (p ++ ((s0 :: sr) ++ r)) = some r := by
  induction p with
  | nil =>
    show (if (s0 :: sr).isPrefixOf ((s0 :: sr) ++ r)
          then some ((sr ++ r).drop sr.length) else afterTok s0 sr (sr ++ r)) = some r
    rw [isPrefixOf_append_self, if_pos rfl, List.drop_left]
  | cons c cs ih =>
    have hc : c ≠ s0 := hp c (by simp)
    show (if (s0 :: sr).isPrefixOf (c :: (cs ++ ((s0 :: sr) ++ r)))
          then _ else afterTok s0 sr (cs ++ ((s0 :: sr) ++ r))) = some r
    rw [tok_not_prefix_cons s0 c sr _ hc, if_neg (by simp),
      ih (fun d hd => hp d (by simp [hd]))]

theorem takeUntilTok_append (s0 : Char) (sr A z : List Char)
    (hA : ∀ c ∈ A, c ≠ s0) :
    takeUntilTok s0 sr (A ++ z) = A ++ takeUntilTok s0 sr z := by
  induction A with
  | nil => rfl
  | cons c cs ih =>
    have hc : c ≠ s0 := hA c (by simp)
    show (if (s0 :: sr).isPrefixOf (c :: (cs ++ z))
          then [] else c :: takeUntilTok s0 sr (cs ++ z)) = c :: (cs ++ takeUntilTok s0 sr z)
    rw [tok_not_prefix_cons s0 c sr _ hc, if_neg (by simp),
      ih (fun d hd => hA d (by simp [hd]))]

theorem takeUntilTok_of_not_containsTok (s0 : Char) (sr l : List Char)
    (h : containsTok s0 sr l = false) : takeUntilTok s0 sr l = l := by
  induction l with
  | nil => rfl
  | cons c cs ih =>
    have h2 : ((s0 :: sr).isPrefixOf (c :: cs)) = false
        ∧ containsTok s0 sr cs = false := by
      simpa [containsTok, Bool.or_eq_false_iff] using h
    show (if (s0 :: sr).isPrefixOf (c :: cs)
          then [] else c :: takeUntilTok s0 sr cs) = c :: cs
    rw [h2.1, if_neg (by simp), ih h2.2]

theorem containsTok_append_py (p r : List Char) :
    containsTok btk pyRest (p ++ (pyTag ++ r)) = true :=
  containsTok_append_tok btk pyRest p r

theorem afterTok_append_py (p r : List Char) (hp : ∀ c ∈ p, c ≠ btk) :
    afterTok btk pyRest (p ++ (pyTag ++ r)) = some r :=
  afterTok_append btk pyRest p r hp

theorem py_not_prefix_four (r : List Char) :
    pyTag.isPrefixOf (btk :: btk :: btk :: btk :: r) = false := by
  show (btk == btk && (btk == btk && (btk == btk && ('p' == btk
      && List.isPrefixOf ['y', 't', 'h', 'o', 'n'] r)))) = false
  rw [show (('p' == btk) : Bool) = false from by decide]
  rw [Bool.false_and, Bool.and_false, Bool.and_false, Bool.and_false]

theorem py_not_prefix_cons1 (c : Char) (r : List Char) (hc : c ≠ btk) :
    pyTag.isPrefixOf (btk :: c :: r) = false := by
  have h : (btk == c) = false := beq_eq_false_iff_ne.mpr (Ne.symm hc)
  show (btk == btk && (btk == c
      && List.isPrefixOf [btk, 'p', 'y', 't', 'h', 'o', 'n'] r)) = false
  rw [h, Bool.false_and, Bool.and_false]

theorem py_not_prefix_cons2 (c : Char) (r : List Char) (hc : c ≠ btk) :
    pyTag.isPrefixOf (btk :: btk :: c :: r) = false := by
  have h : (btk == c) = false := beq_eq_false_iff_ne.mpr (Ne.symm hc)
  show (btk == btk && (btk == btk && (btk == c
      && List.isPrefixOf ['p', 'y', 't', 'h', 'o', 'n'] r))) = false
  rw [h, Bool.false_and, Bool.and_false, Bool.and_false]

theorem takeUntil_tick_after_py (s : List Char)
    (h1 : pyTag.isPrefixOf (btk :: btk :: s) = false)
    (h2 : pyTag.isPrefixOf (btk :: s) = false) :
    takeUntilTok btk tickRest (takeUntilTok btk pyRest (tick ++ s)) = [] := by
  have e : tick ++ s = btk :: btk :: btk :: s := rfl
  rw [e]
  cases h0 : pyTag.isPrefixOf (btk :: btk :: btk :: s) with
  | true =>
    have t0 : takeUntilTok btk pyRest (btk :: btk :: btk :: s) = [] := by
      show (if (btk :: pyRest).isPrefixOf (btk :: btk :: btk :: s)
          then [] else btk :: takeUntilTok btk pyRest (btk :: btk :: s)) = []
      rw [show (btk :: pyRest) = pyTag from rfl, h0, if_pos rfl]
    rw [t0]; rfl
  | false =>
    have t1 : takeUntilTok btk pyRest (btk :: btk :: btk :: s)
        = btk :: takeUntilTok btk pyRest (btk :: btk :: s) := by
      show (if (btk :: pyRest).isPrefixOf (btk :: btk :: btk :: s)
          then [] else btk :: takeUntilTok btk pyRest (btk :: btk :: s)) = _
      rw [show (btk :: pyRest) = pyTag from rfl, h0, if_neg (by simp)]
    have t2 : takeUntilTok btk pyRest (btk :: btk :: s)
        = btk :: takeUntilTok btk pyRest (btk :: s) := by
      show (if (btk :: pyRest).isPrefixOf (btk :: btk :: s)
          then [] else btk :: takeUntilTok btk pyRest (btk :: s)) = _
      rw [show (btk :: pyRest) = pyTag from rfl, h1, if_neg (by simp)]
    have t3 : takeUntilTok btk pyRest (btk :: s)
        = btk :: takeUntilTok btk pyRest s := by
      show (if (btk :: pyRest).isPrefixOf (btk :: s)
          then [] else btk :: takeUntilTok btk pyRest s) = _
      rw [show (btk :: pyRest) = pyTag from rfl, h2, if_neg (by simp)]
    rw [t1, t2, t3]
    have ht : (btk :: tickRest).isPrefixOf
        (btk :: btk :: btk :: takeUntilTok btk pyRest s) = true := by
      show (btk == btk && (btk == btk && (btk == btk
          && List.isPrefixOf [] (takeUntilTok btk pyRest s)))) = true
      simp
    show (if (btk :: tickRest).isPrefixOf
        (btk :: btk :: btk :: takeUntilTok btk pyRest s)
        then [] else btk :: takeUntilTok btk tickRest
          (btk :: btk :: takeUntilTok btk pyRest s)) = []
    rw [ht, if_pos rfl]

/-- C4: if the raw model text contains a language-tagged fence
(` ```python `) enclosing content `A` and, later, a generic fence
(` ``` `) enclosing content `B`, extraction returns `A` trimmed: the
language-tagged fence takes precedence (the substring strictly between
the first ` ```python ` and the next ` ``` ` is taken), regardless of the
generic block `B`.  The intro text `p`, the tagged content `A` and the
inter-fence gap `m` contain no backtick, as in any well-formed fenced
document. -/
theorem extract_language_fence_precedence
    (p A m B s2 : List Char)
    (hp : ∀ c ∈ p, c ≠ btk) (hA : ∀ c ∈ A, c ≠ btk) (hm : ∀ c ∈ m, c ≠ btk) :
    extractL (p ++ (pyTag ++ (A ++ (tick
      ++ (m ++ (tick ++ (B ++ (tick ++ s2)))))))) = pyStrip A := by
  have h1 : pyTag.isPrefixOf
      (btk :: btk :: (m ++ (tick ++ (B ++ (tick ++ s2))))) = false := by
    cases m with
    | nil => exact py_not_prefix_four (btk :: (B ++ (tick ++ s2)))
    | cons c m1 => exact py_not_prefix_cons2 c _ (hm c (by simp))
  have h2 : pyTag.isPrefixOf
      (btk :: (m ++ (tick ++ (B ++ (tick ++ s2))))) = false := by
    cases m with
    | nil => exact py_not_prefix_four (B ++ (tick ++ s2))
    | cons c m1 => exact py_not_prefix_cons1 c _ (hm c (by simp))
  unfold extractL
  rw [containsTok_append_py, if_pos rfl, afterTok_append_py p _ hp,
    Option.getD_some,
    takeUntilTok_append btk pyRest A _ hA,
    takeUntilTok_append btk tickRest A _ hA,
    takeUntil_tick_after_py _ h1 h2,
    List.append_nil]

/-- Closed-form instance of `extract_language_fence_precedence`. -/
theorem extract_language_fence_precedence_witness :
    extractL (("intro: ".data) ++ (pyTag ++ (("\nresult = 1\n".data) ++ (tick
      ++ (("\nand also\n".data) ++ (tick ++ (("other = 2".data)
      ++ (tick ++ ("\ndone".data))))))))) = pyStrip ("\nresult = 1\n".data) :=
  extract_language_fence_precedence
    ("intro: ".data) ("\nresult = 1\n".data) ("\nand also\n".data)
    ("other = 2".data) ("\ndone".data) (by decide) (by decide) (by decide)

/-- C10: on an opening ` ```python ` fence with no subsequent closing
fence, extraction returns everything after the first ` ```python `
marker, trimmed — it does not fall back to the raw text. -/
theorem extract_unterminated_fence_tail
    (p A : List Char) (hp : ∀ c ∈ p, c ≠ btk)
    (hA : containsTok btk tickRest A = false) :
    extractL (p ++ (pyTag ++ A)) = pyStrip A := by
  have hApy : containsTok btk pyRest A = false := by
    cases h : containsTok btk pyRest A with
    | false => rfl
    | true => rw [containsTok_tick_of_py A h] at hA; exact Bool.noConfusion hA
  unfold extractL
  rw [containsTok_append_py, if_pos rfl, afterTok_append_py p A hp,
    Option.getD_some,
    takeUntilTok_of_not_containsTok btk pyRest A hApy,
    takeUntilTok_of_not_containsTok btk tickRest A hA]

/-- Closed-form instance of `extract_unterminated_fence_tail`. -/
theorem extract_unterminated_fence_tail_witness :
    extractL (("Answer:\n".data) ++ (pyTag ++ ("\nresult = 1\nprint(result)".data)))
      = pyStrip ("\nresult = 1\nprint(result)".data) :=
  extract_unterminated_fence_tail ("Answer:\n".data)
    ("\nresult = 1\nprint(result)".data) (by decide) (by decide)

/-- C6 (amended): on raw text with no fence marker at all, extraction
returns the text unchanged — no trimming happens in the no-fence
fallback. -/
theorem extract_nofence_returns_raw_unchanged (code : List Char)
    (h : containsTok btk tickRest code = false) :
    extractL code = code := by
  have hpy : containsTok btk pyRest code = false := by
    cases h2 : containsTok btk pyRest code with
    | false => rfl
    | true => rw [containsTok_tick_of_py code h2] at h; exact Bool.noConfusion h
  unfold extractL
  rw [hpy, h, if_neg (by simp), if_neg (by simp)]

/-- Closed-form instance of `extract_nofence_returns_raw_unchanged`. -/
theorem extract_nofence_returns_raw_unchanged_witness :
    extractL ("result = 1\nprint(result)".data) = ("result = 1\nprint(result)".data) :=
  extract_nofence_returns_raw_unchanged ("result = 1\nprint(result)".data) (by decide)

/-- C6 counterexample: the no-fence input `" x "` contains no fence
marker, extraction returns it unchanged, and the returned text is NOT
the trimmed text — refuting the claim that trimming is applied in the
no-fence fallback. -/
theorem extract_nofence_untrimmed_counterexample :
    containsTok btk tickRest (" x ".data) = false
    ∧ extractL (" x ".data) = (" x ".data)
    ∧ extractL (" x ".data) ≠ pyStrip (" x ".data) := by
  exact ⟨by decide, by decide, by decide⟩

/-- The code string produced by the analysis generation pass (extracted
model output, or the swallowed diagnostic). -/
def genCodeStr (schema question : String)
    (completion : String → Except String String) : String :=
  match completion (analysisPrompt schema question) with
  | Except.ok content => extractS content
  | Except.error e => "Error generating code: " ++ e

/-- The code string produced by the visualization generation pass. -/
def genVizStr (schema question : String)
    (completion : String → Except String String) : String :=
  match completion (vizPrompt schema question) with
  | Except.ok content => extractS content
  | Except.error e => "Error generating visualization code: " ++ e

theorem generate_code_some (schema question : String)
    (completion : String → Except String String) :
    generate_code (some schema) completion question
      = (Except.ok (genCodeStr schema question completion),
         [analysisPrompt schema question]) := by
  unfold generate_code load_schema genCodeStr
  dsimp only
  cases h : completion (analysisPrompt schema question) <;> rfl

theorem generate_visualization_code_some (schema question : String)
    (completion : String → Except String String) :
    generate_visualization_code (some schema) completion question
      = (Except.ok (genVizStr schema question completion),
         [vizPrompt schema question]) := by
  unfold generate_visualization_code load_schema genVizStr
  dsimp only
  cases h : completion (vizPrompt schema question) <;> rfl

theorem analyze_eval_ff (schema question : String)
    (completion : String → Except String String)
    (runner : String → Env → Except String Env) :
    (analyze (some schema) completion runner question false false).1
      = Except.ok { question := question,
                    code := genCodeStr schema question completion,
                    viz_code := none, status := none, error := none } := by
  unfold analyze
  rw [generate_code_some]
  rfl

theorem analyze_eval_fv (schema question : String)
    (completion : String → Except String String)
    (runner : String → Env → Except String Env) :
    (analyze (some schema) completion runner question false true).1
      = Except.ok { question := question,
                    code := genCodeStr schema question completion,
                    viz_code := some (genVizStr schema question completion),
                    status := none, error := none } := by
  unfold analyze
  rw [generate_code_some, generate_visualization_code_some]
  rfl

theorem analyze_eval_tf_err (schema question m : String)
    (completion : String → Except String String)
    (runner : String → Env → Except String Env)
    (hr : runner (genCodeStr schema question completion) [] = Except.error m) :
    (analyze (some schema) completion runner question true false).1
      = Except.ok { question := question,
                    code := genCodeStr schema question completion,
                    viz_code := none, status := some ("error"),
                    error := some m } := by
  have key : analyze (some schema) completion runner question true false
      = (match runner (genCodeStr schema question completion) ([] : Env) with
         | Except.error msg =>
           (Except.ok { question := question,
                        code := genCodeStr schema question completion,
                        viz_code := none, status := some ("error"),
                        error := some msg },
            [analysisPrompt schema question])
         | Except.ok env1 =>
           (Except.ok { question := question,
                        code := genCodeStr schema question completion,
                        viz_code := none, status := some ("success"),
                        error := none },
            [analysisPrompt schema question])) := by
    unfold analyze
    rw [generate_code_some]
    rfl
  rw [key, hr]

theorem analyze_eval_tf_ok (schema question : String) (env1 : Env)
    (completion : String → Except String String)
    (runner : String → Env → Except String Env)
    (hr : runner (genCodeStr schema question completion) [] = Except.ok env1) :
    (analyze (some schema) completion runner question true false).1
      = Except.ok { question := question,
                    code := genCodeStr schema question completion,
                    viz_code := none, status := some ("success"),
                    error := none } := by
  have key : analyze (some schema) completion runner question true false
      = (match runner (genCodeStr schema question completion) ([] : Env) with
         | Except.error msg =>
           (Except.ok { question := question,
                        code := genCodeStr schema question completion,
                        viz_code := none, status := some ("error"),
                        error := some msg },
            [analysisPrompt schema question])
         | Except.ok e1 =>
           (Except.ok { question := question,
                        code := genCodeStr schema question completion,
                        viz_code := none, status := some ("success"),
                        error := none },
            [analysisPrompt schema question])) := by
    unfold analyze
    rw [generate_code_some]
    rfl
  rw [key, hr]

theorem analyze_eval_tv (schema question : String)
    (completion : String → Except String String)
    (runner : String → Env → Except String Env) :
    analyze (some schema) completion runner question true true
      = (match runner (genCodeStr schema question completion) ([] : Env) with
         | Except.error msg =>
           (Except.ok { question := question,
                        code := genCodeStr schema question completion,
                        viz_code := some (genVizStr schema question completion),
                        status := some ("error"), error := some msg },
            [analysisPrompt schema question, vizPrompt schema question])
         | Except.ok env1 =>
           match runner (genVizStr schema question completion) env1 with
           | Except.error msg =>
             (Except.ok { question := question,
                          code := genCodeStr schema question completion,
                          viz_code := some (genVizStr schema question completion),
                          status := some ("error"), error := some msg },
              [analysisPrompt schema question, vizPrompt schema question])
           | Except.ok _ =>
             (Except.ok { question := question,
                          code := genCodeStr schema question completion,
                          viz_code := some (genVizStr schema question completion),
                          status := some ("success"), error := none },
              [analysisPrompt schema question, vizPrompt schema question])) := by
  unfold analyze
  rw [generate_code_some, generate_visualization_code_some]
  rfl

theorem analyze_eval_tv_err1 (schema question m : String)
    (completion : String → Except String String)
    (runner : String → Env → Except String Env)
    (hr : runner (genCodeStr schema question completion) [] = Except.error m) :
    (analyze (some schema) completion runner question true true).1
      = Except.ok { question := question,
                    code := genCodeStr schema question completion,
                    viz_code := some (genVizStr schema question completion),
                    status := some ("error"), error := some m } := by
  rw [analyze_eval_tv, hr]

theorem analyze_eval_tv_err2 (schema question m : String) (env1 : Env)
    (completion : String → Except String String)
    (runner : String → Env → Except String Env)
    (hr1 : runner (genCodeStr schema question completion) [] = Except.ok env1)
    (hr2 : runner (genVizStr schema question completion) env1 = Except.error m) :
    (analyze (some schema) completion runner question true true).1
      = Except.ok { question := question,
                    code := genCodeStr schema question completion,
                    viz_code := some (genVizStr schema question completion),
                    status := some ("error"), error := some m } := by
  rw [analyze_eval_tv, hr1]
  dsimp only
  rw [hr2]

theorem analyze_eval_tv_ok (schema question : String) (env1 env2 : Env)
    (completion : String → Except String String)
    (runner : String → Env → Except String Env)
    (hr1 : runner (genCodeStr schema question completion) [] = Except.ok env1)
    (hr2 : runner (genVizStr schema question completion) env1 = Except.ok env2) :
    (analyze (some schema) completion runner question true true).1
      = Except.ok { question := question,
                    code := genCodeStr schema question completion,
                    viz_code := some (genVizStr schema question completion),
                    status := some ("success"), error := none } := by
  rw [analyze_eval_tv, hr1]
  dsimp only
  rw [hr2]

/-- C2: with a missing schema source, `analyze` raises the
`FileNotFoundError` (ConfigurationFault) to its caller — for any flags —
and the backend-call trace is empty: the completion backend is invoked
zero times. -/
theorem analyze_missing_schema_raises
    (completion : String → Except String String)
    (runner : String → Env → Except String Env)
    (question : String) (execute include_viz : Bool) :
    analyze none completion runner question execute include_viz
      = (Except.error ("Schema file not found: " ++ schema_path),
         ([] : List String)) := rfl

/-- C8: with execute = false and include_viz = false, the returned
record leaves every optional field unset (`viz_code`, `status`, `error`
are all `none`) and carries the question. -/
theorem analyze_plain_call_leaves_optional_fields_unset
    (schema question : String)
    (completion : String → Except String String)
    (runner : String → Env → Except String Env) :
    ∃ rec : AnalysisResult,
      (analyze (some schema) completion runner question false false).1
        = Except.ok rec
      ∧ rec.question = question ∧ rec.viz_code = none
      ∧ rec.status = none ∧ rec.error = none :=
  ⟨_, analyze_eval_ff schema question completion runner, rfl, rfl, rfl, rfl⟩

/-- C9: request construction is deterministic — for equal (question,
schema) inputs the rendered request text is identical, for both the
analysis kind and the visualization kind.  The builders are pure
functions of their inputs (no hidden state in the embedding). -/
theorem request_construction_deterministic
    (schema1 schema2 question1 question2 : String)
    (hs : schema1 = schema2) (hq : question1 = question2) :
    analysisPrompt schema1 question1 = analysisPrompt schema2 question2
    ∧ vizPrompt schema1 question1 = vizPrompt schema2 question2 := by
  subst hs; subst hq; exact ⟨rfl, rfl⟩

/-- Closed-form instance of `request_construction_deterministic`. -/
theorem request_construction_deterministic_witness :
    analysisPrompt ("s") ("q") = analysisPrompt ("s") ("q")
    ∧ vizPrompt ("s") ("q") = vizPrompt ("s") ("q") :=
  request_construction_deterministic ("s") ("s") ("q") ("q") rfl rfl

/-- C1: if every completion call fails, `analyze question true false`
does not raise: the diagnostic error string becomes the code unit, and
(executing that degenerate unit failing with message `em`) the returned
record carries the question, that code, status = error and the
non-empty message. -/
theorem analyze_backend_fault_resilient
    (schema question em : String) (failMsg : String → String)
    (completion : String → Except String String)
    (runner : String → Env → Except String Env)
    (hc : ∀ p, completion p = Except.error (failMsg p))
    (hr : runner ("Error generating code: "
        ++ failMsg (analysisPrompt schema question)) [] = Except.error em)
    (hem : em ≠ "") :
    (analyze (some schema) completion runner question true false).1
      = Except.ok { question := question,
                    code := "Error generating code: "
                      ++ failMsg (analysisPrompt schema question),
                    viz_code := none, status := some ("error"),
                    error := some em }
    ∧ em ≠ "" := by
  have hgc : genCodeStr schema question completion
      = "Error generating code: " ++ failMsg (analysisPrompt schema question) := by
    unfold genCodeStr
    rw [hc]
  refine ⟨?_, hem⟩
  rw [← hgc] at hr ⊢
  exact analyze_eval_tf_err schema question em completion runner hr

/-- Closed-form instance of `analyze_backend_fault_resilient`. -/
theorem analyze_backend_fault_resilient_witness :
    (analyze (some ("s")) (fun _ => Except.error ("boom"))
        (fun _ _ => Except.error ("invalid syntax")) ("q") true false).1
      = Except.ok { question := ("q"),
                    code := "Error generating code: boom",
                    viz_code := none, status := some ("error"),
                    error := some ("invalid syntax") }
    ∧ ("invalid syntax" : String) ≠ "" :=
  analyze_backend_fault_resilient ("s") ("q") ("invalid syntax")
    (fun _ => ("boom")) (fun _ => Except.error ("boom"))
    (fun _ _ => Except.error ("invalid syntax"))
    (fun _ => rfl) rfl (by decide)

/-- C3: executing units [U1, U2] (analysis code, then viz code) with
execute = true and include_viz = true: if U1 faults with message `m`,
the result records status = error with that message, and U2 is never
executed — the result is identical for any other runner that agrees
with the first one on U1 alone (`runner2`).  If both units complete
without fault (`runnerS`), the result records status = success. -/
theorem analyze_execution_short_circuit
    (schema question m : String)
    (completion : String → Except String String)
    (runner runner2 runnerS : String → Env → Except String Env)
    (rec : AnalysisResult) (env1 env2 : Env)
    (h0 : (analyze (some schema) completion runner question false true).1
        = Except.ok rec)
    (hf : runner rec.code [] = Except.error m)
    (hf2 : runner2 rec.code [] = Except.error m)
    (hs1 : runnerS rec.code [] = Except.ok env1)
    (hs2 : runnerS (rec.viz_code.getD ("")) env1 = Except.ok env2) :
    (analyze (some schema) completion runner question true true).1
      = Except.ok { rec with status := some ("error"), error := some m }
    ∧ (analyze (some schema) completion runner question true true).1
      = (analyze (some schema) completion runner2 question true true).1
    ∧ (analyze (some schema) completion runnerS question true true).1
      = Except.ok { rec with status := some ("success") } := by
  have h1 := analyze_eval_fv schema question completion runner
  rw [h0] at h1
  have hrec := Except.ok.inj h1
  subst hrec
  refine ⟨?_, ?_, ?_⟩
  · exact analyze_eval_tv_err1 schema question m completion runner hf
  · rw [analyze_eval_tv_err1 schema question m completion runner hf,
      analyze_eval_tv_err1 schema question m completion runner2 hf2]
  · exact analyze_eval_tv_ok schema question env1 env2 completion runnerS hs1 hs2

/-- Closed-form instance of `analyze_execution_short_circuit`. -/
theorem analyze_execution_short_circuit_witness :
    (analyze (some ("s")) (fun _ => Except.ok ("print(1)"))
        (fun _ e => if e.isEmpty then Except.error ("division by zero")
                    else Except.ok e) ("q") true true).1
      = Except.ok { question := ("q"), code := ("print(1)"),
                    viz_code := some ("print(1)"),
                    status := some ("error"),
                    error := some ("division by zero") }
    ∧ (analyze (some ("s")) (fun _ => Except.ok ("print(1)"))
        (fun _ e => if e.isEmpty then Except.error ("division by zero")
                    else Except.ok e) ("q") true true).1
      = (analyze (some ("s")) (fun _ => Except.ok ("print(1)"))
          (fun _ _ => Except.error ("division by zero")) ("q") true true).1
    ∧ (analyze (some ("s")) (fun _ => Except.ok ("print(1)"))
        (fun _ e => Except.ok ((("x"), ("1")) :: e)) ("q") true true).1
      = Except.ok { question := ("q"), code := ("print(1)"),
                    viz_code := some ("print(1)"),
                    status := some ("success"), error := none } :=
  analyze_execution_short_circuit ("s") ("q") ("division by zero")
    (fun _ => Except.ok ("print(1)"))
    (fun _ e => if e.isEmpty then Except.error ("division by zero")
                else Except.ok e)
    (fun _ _ => Except.error ("division by zero"))
    (fun _ e => Except.ok ((("x"), ("1")) :: e))
    { question := ("q"), code := ("print(1)"),
      viz_code := some ("print(1)"), status := none, error := none }
    ([(("x"), ("1"))]) ([(("x"), ("1")), (("x"), ("1"))])
    rfl rfl rfl rfl rfl

/-- C5: with execute = true and include_viz = true both units run
sequentially in the fixed order [analysis unit, viz unit] in one shared
namespace: starting from the fresh empty namespace, the viz unit is
evaluated in exactly the namespace `env1` produced by the analysis
unit, and the final status is decided by that evaluation (success for
`runnerA`, the fault message for `runnerB`, which only faults when
handed the bindings produced by the first unit). -/
theorem analyze_shared_execution_context
    (schema question m : String)
    (completion : String → Except String String)
    (runnerA runnerB : String → Env → Except String Env)
    (rec : AnalysisResult) (env1 env1b env2 : Env)
    (h0 : (analyze (some schema) completion runnerA question false true).1
        = Except.ok rec)
    (ha1 : runnerA rec.code [] = Except.ok env1)
    (ha2 : runnerA (rec.viz_code.getD ("")) env1 = Except.ok env2)
    (hb1 : runnerB rec.code [] = Except.ok env1b)
    (hb2 : runnerB (rec.viz_code.getD ("")) env1b = Except.error m) :
    (analyze (some schema) completion runnerA question true true).1
      = Except.ok { rec with status := some ("success") }
    ∧ (analyze (some schema) completion runnerB question true true).1
      = Except.ok { rec with status := some ("error"), error := some m } := by
  have h1 := analyze_eval_fv schema question completion runnerA
  rw [h0] at h1
  have hrec := Except.ok.inj h1
  subst hrec
  exact ⟨analyze_eval_tv_ok schema question env1 env2 completion runnerA ha1 ha2,
    analyze_eval_tv_err2 schema question m env1b completion runnerB hb1 hb2⟩

/-- Closed-form instance of `analyze_shared_execution_context`. -/
theorem analyze_shared_execution_context_witness :
    (analyze (some ("s")) (fun _ => Except.ok ("print(1)"))
        (fun _ e => Except.ok ((("x"), ("1")) :: e)) ("q") true true).1
      = Except.ok { question := ("q"), code := ("print(1)"),
                    viz_code := some ("print(1)"),
                    status := some ("success"), error := none }
    ∧ (analyze (some ("s")) (fun _ => Except.ok ("print(1)"))
        (fun _ e => if e.isEmpty then Except.ok ((("x"), ("1")) :: e)
                    else Except.error ("name y is not defined")) ("q") true true).1
      = Except.ok { question := ("q"), code := ("print(1)"),
                    viz_code := some ("print(1)"),
                    status := some ("error"),
                    error := some ("name y is not defined") } :=
  analyze_shared_execution_context ("s") ("q") ("name y is not defined")
    (fun _ => Except.ok ("print(1)"))
    (fun _ e => Except.ok ((("x"), ("1")) :: e))
    (fun _ e => if e.isEmpty then Except.ok ((("x"), ("1")) :: e)
                else Except.error ("name y is not defined"))
    { question := ("q"), code := ("print(1)"),
      viz_code := some ("print(1)"), status := none, error := none }
    ([(("x"), ("1"))]) ([(("x"), ("1"))])
    ([(("x"), ("1")), (("x"), ("1"))])
    rfl rfl rfl rfl rfl

/-- C7: with include_viz = true the visualization pass is an
independent second generation pass: a backend fault during it is
swallowed into the viz diagnostic string, the `code` field produced by
the analysis pass is exactly what the same call without the
visualization pass produces, and `viz_code` is set. -/
theorem analyze_viz_pass_independent
    (schema question e : String) (execute : Bool)
    (completion : String → Except String String)
    (runner : String → Env → Except String Env)
    (hviz : completion (vizPrompt schema question) = Except.error e) :
    ∃ rec rec0 : AnalysisResult,
      (analyze (some schema) completion runner question execute true).1
        = Except.ok rec
      ∧ (analyze (some schema) completion runner question execute false).1
        = Except.ok rec0
      ∧ rec.code = rec0.code
      ∧ rec.viz_code = some ("Error generating visualization code: " ++ e) := by
  have hgv : genVizStr schema question completion
      = "Error generating visualization code: " ++ e := by
    unfold genVizStr
    rw [hviz]
  cases execute with
  | false =>
    refine ⟨_, _, analyze_eval_fv schema question completion runner,
      analyze_eval_ff schema question completion runner, rfl, ?_⟩
    show some (genVizStr schema question completion) = _
    rw [hgv]
  | true =>
    cases hr1 : runner (genCodeStr schema question completion) [] with
    | error msg =>
      refine ⟨_, _, analyze_eval_tv_err1 schema question msg completion runner hr1,
        analyze_eval_tf_err schema question msg completion runner hr1, rfl, ?_⟩
      show some (genVizStr schema question completion) = _
      rw [hgv]
    | ok env1 =>
      cases hr2 : runner (genVizStr schema question completion) env1 with
      | error msg =>
        refine ⟨_, _,
          analyze_eval_tv_err2 schema question msg env1 completion runner hr1 hr2,
          analyze_eval_tf_ok schema question env1 completion runner hr1, rfl, ?_⟩
        show some (genVizStr schema question completion) = _
        rw [hgv]
      | ok env2 =>
        refine ⟨_, _,
          analyze_eval_tv_ok schema question env1 env2 completion runner hr1 hr2,
          analyze_eval_tf_ok schema question env1 completion runner hr1, rfl, ?_⟩
        show some (genVizStr schema question completion) = _
        rw [hgv]

/-- Closed-form instance of `analyze_viz_pass_independent` (the backend
answers the analysis request but faults on the longer visualization
request; the two prompt kinds are told apart by their first differing
character, index 40: `.` in the analysis prompt, a space in the
visualization prompt). -/
theorem analyze_viz_pass_independent_witness :
    ∃ rec rec0 : AnalysisResult,
      (analyze (some ("s"))
          (fun p => if p.data.getD 40 (' ') == '.' then Except.ok ("print(1)")
                    else Except.error ("boom"))
          (fun _ e => Except.ok e) ("q") false true).1
        = Except.ok rec
      ∧ (analyze (some ("s"))
          (fun p => if p.data.getD 40 (' ') == '.' then Except.ok ("print(1)")
                    else Except.error ("boom"))
          (fun _ e => Except.ok e) ("q") false false).1
        = Except.ok rec0
      ∧ rec.code = rec0.code
      ∧ rec.viz_code = some ("Error generating visualization code: boom") :=
  analyze_viz_pass_independent ("s") ("q") ("boom") false
    (fun p => if p.data.getD 40 (' ') == '.' then Except.ok ("print(1)")
              else Except.error ("boom"))
    (fun _ e => Except.ok e) (by rfl)
